import Mathlib

/-
Verification development for the sensor-hub service.

The definitions below are a shallow embedding of the Python source:
  * src/app.py / src/main.py : load_sensors, check_health / health_check,
    and the HTTP endpoint handlers (the two entry points share identical
    core logic, so one embedding covers both);
  * src/sensors/base.py      : BaseSensor (cleanup default);
  * src/sensors/dht22.py     : DHT22Sensor.read / get_info / cleanup.

Python dictionaries are modelled as association lists with dict-update
semantics (assignment to an existing key replaces the value in place,
assignment to a fresh key appends).  Machine floats are modelled as
rationals; exceptions are modelled with Except.
-/

set_option autoImplicit false

namespace SensorHub

/-- Outcome of one physical read of a sensor, as seen by the health
aggregator: the read returns a tagged success, returns a tagged failure,
or raises an exception carrying a message. -/
inductive ReadOutcome where
  | ok
  | fail
  | raises (msg : String)
deriving DecidableEq, Repr

/-- One entry of the ordered sensor list of config.yaml, together with the
environment the loader meets for it: ctorRaises models the outcome of the
dynamic import plus constructor call of src/app.py lines 48-60 (none means
the sensor class instantiates, some msg means an exception with that
message is raised: unknown type tag, missing module, constructor failure);
readBehavior models what the underlying device does when the instance is
read during a health pass. -/
structure Spec where
  id : String
  name : Option String
  type_ : String
  enabled : Option Bool
  pin : Option String
  ctorRaises : Option String
  readBehavior : ReadOutcome
deriving DecidableEq, Repr

/-- A live sensor instance: the fields BaseSensor.__init__ and
DHT22Sensor.__init__ store from (sensor_id, name, config). -/
structure SensorInstance where
  sensor_id : String
  name : String
  pin : String
  enabled : Bool
  readBehavior : ReadOutcome
deriving DecidableEq, Repr

/-- The instance built by sensor_class(sensor_id=sensor_id,
name=sensor_config.get('name', sensor_id), config=sensor_config):
BaseSensor.__init__ stores sensor_id and name and
enabled = config.get('enabled', True); DHT22Sensor keeps the config,
from which get_info later echoes config.get('pin', 'D4'). -/
def mkInstance (s : Spec) : SensorInstance :=
  { sensor_id := s.id
    name := s.name.getD s.id
    pin := s.pin.getD "D4"
    enabled := s.enabled.getD true
    readBehavior := s.readBehavior }

/-- The dynamic import + constructor call of load_sensors, src/app.py
lines 48-60: either raises (modelled by ctorRaises = some msg) or yields
the instance. -/
def instantiate (s : Spec) : Except String SensorInstance :=
  match s.ctorRaises with
  | some msg => Except.error msg
  | none => Except.ok (mkInstance s)

/-- The module-level dict sensors: Dict[str, object], as an association
list in insertion order. -/
abbrev Registry := List (String × SensorInstance)

/-- Keys of the registry in order. -/
def keys (m : Registry) : List String := m.map Prod.fst

/-- Python dict assignment sensors[sensor_id] = sensor_instance: replace
the value in place when the key is present, append otherwise. -/
def dictInsert (m : Registry) (k : String) (v : SensorInstance) : Registry :=
  if k ∈ keys m then m.map (fun p => if p.1 = k then (k, v) else p)
  else m ++ [(k, v)]

/-- Python dict lookup sensors[sensor_id] / the membership test
sensor_id in sensors. -/
def lookupReg (m : Registry) (k : String) : Option SensorInstance :=
  (m.find? (fun p => p.1 == k)).map Prod.snd

/-- A spec both passes the enabled filter and instantiates. -/
def shouldLoad (s : Spec) : Bool :=
  s.enabled.getD true && s.ctorRaises.isNone

/-- One iteration of the load_sensors loop, src/app.py lines 38-65:
skip when not sensor_config.get('enabled', True); otherwise try to
instantiate, catching any exception (the entry is then simply absent),
and on success assign sensors[sensor_id] = sensor_instance. -/
def loadStep (m : Registry) (s : Spec) : Registry :=
  if (s.enabled.getD true) = false then m
  else
    match instantiate s with
    | Except.error _ => m
    | Except.ok inst => dictInsert m s.id inst

/-- load_sensors: fold the loop body over the ordered spec list, starting
from the empty dict. -/
def loadSensors (specs : List Spec) : Registry :=
  specs.foldl loadStep []

/-- The specs for which the loop body reaches the try block (i.e. an
instantiation is attempted), in loop order: everything that survives the
enabled check at src/app.py lines 39-41. -/
def attemptedSpecs (specs : List Spec) : List Spec :=
  specs.foldl (fun acc s => if (s.enabled.getD true) = false then acc else acc ++ [s]) []

/-- The per-sensor status string written into sensor_status by the health
loop: 'healthy' for a successful read, 'unhealthy' for a tagged failure,
'error: <message>' for a read that raises. -/
def perStatus : ReadOutcome → String
  | ReadOutcome.ok => "healthy"
  | ReadOutcome.fail => "unhealthy"
  | ReadOutcome.raises m => "error: " ++ m

/-- Whether the health loop counts the outcome in healthy_count. -/
def isHealthyRead : ReadOutcome → Bool
  | ReadOutcome.ok => true
  | _ => false

/-- One iteration of the check_health loop, src/app.py lines 80-91:
inside try, call read() and branch on result['success']; the except
clause catches a raising read, counts it unhealthy and records
'error: <message>'.  Accumulator: (healthy_count, unhealthy_count,
sensor_status in insertion order). -/
def healthStep (acc : Nat × Nat × List (String × String)) (p : String × SensorInstance) :
    Nat × Nat × List (String × String) :=
  match p.2.readBehavior with
  | ReadOutcome.ok => (acc.1 + 1, acc.2.1, acc.2.2 ++ [(p.1, "healthy")])
  | ReadOutcome.fail => (acc.1, acc.2.1 + 1, acc.2.2 ++ [(p.1, "unhealthy")])
  | ReadOutcome.raises m => (acc.1, acc.2.1 + 1, acc.2.2 ++ [(p.1, "error: " ++ m)])

/-- The JSON body and HTTP code assembled by check_health. -/
structure HealthReport where
  status : String
  sensorStatus : List (String × String)
  total : Nat
  healthy : Nat
  unhealthy : Nat
  httpCode : Nat
deriving DecidableEq, Repr

/-- check_health / health_check, src/app.py lines 74-103: run the loop
over all registered sensors, then overall_status = 'healthy' if
unhealthy_count == 0 else 'degraded' if healthy_count > 0 else
'unhealthy', served with 200 when healthy and 503 otherwise. -/
def checkHealth (reg : Registry) : HealthReport :=
  let r := reg.foldl healthStep (0, 0, [])
  let overall :=
    if r.2.1 = 0 then "healthy" else if r.1 > 0 then "degraded" else "unhealthy"
  { status := overall
    sensorStatus := r.2.2
    total := reg.length
    healthy := r.1
    unhealthy := r.2.1
    httpCode := if overall = "healthy" then 200 else 503 }

/-- Number of sensors of the registry whose read succeeds. -/
def numHealthy (reg : Registry) : Nat :=
  reg.countP (fun p => isHealthyRead p.2.readBehavior)

/-- Number of sensors of the registry whose read fails or raises. -/
def numUnhealthy (reg : Registry) : Nat :=
  reg.countP (fun p => !isHealthyRead p.2.readBehavior)

/-- The record DHT22Sensor.get_info returns (the static measurement
metadata block is a constant and is folded into description). -/
structure SensorInfo where
  sensor_id : String
  name : String
  type_ : String
  description : String
  pin : String
  enabled : Bool
deriving DecidableEq, Repr

/-- DHT22Sensor.get_info, src/sensors/dht22.py lines 63-86. -/
def get_info (inst : SensorInstance) : SensorInfo :=
  { sensor_id := inst.sensor_id
    name := inst.name
    type_ := "DHT22"
    description := "Temperature and humidity sensor"
    pin := inst.pin
    enabled := inst.enabled }

/-- A Python exception raised by the adafruit_dht driver during a
property access: either a RuntimeError (the common transient DHT fault)
or any other exception. -/
inductive PyError where
  | runtimeError (msg : String)
  | otherError (msg : String)
deriving DecidableEq, Repr

/-- The message DHT22Sensor.read puts into the error field for a caught
exception: f'RuntimeError: \x7berror.args[0]\x7d' for a RuntimeError and
f'Exception: \x7bstr(error)\x7d' otherwise. -/
def pyErrString : PyError → String
  | PyError.runtimeError m => "RuntimeError: " ++ m
  | PyError.otherError m => "Exception: " ++ m

/-- The behavior of the DHT22 device for one read: each property access
(self.sensor.temperature, self.sensor.humidity) either raises or yields
an optional rational (None when the driver has no fresh data).  Machine
floats are modelled as exact rationals. -/
structure DHTDevice where
  temperature : Except PyError (Option ℚ)
  humidity : Except PyError (Option ℚ)

/-- Python round(x, 1), modelled as exact rational rounding to one
decimal digit. -/
def round1 (q : ℚ) : ℚ := (round (q * 10) : ℤ) / 10

/-- The dict DHT22Sensor.read returns: \x7b'success': True, 'data': ...\x7d
or \x7b'success': False, 'error': ...\x7d. -/
inductive ReadResult where
  | success (temperature_c temperature_f humidity : ℚ)
  | failure (error : String)
deriving DecidableEq, Repr

/-- DHT22Sensor.read, src/sensors/dht22.py lines 26-61: inside try, read
temperature then humidity (a raise in the first skips the second); if
both are not None return the success dict with temperature_f =
temperature_c * (9 / 5) + 32 and values rounded to one decimal, else the
'Failed to retrieve data from sensor' failure; the except RuntimeError
and except Exception clauses convert any raise into a failure dict.  The
Except String layer records whether the call itself lets an exception
escape. -/
def dht22_read (dev : DHTDevice) : Except String ReadResult :=
  match dev.temperature with
  | Except.error e => Except.ok (ReadResult.failure (pyErrString e))
  | Except.ok tc =>
    match dev.humidity with
    | Except.error e => Except.ok (ReadResult.failure (pyErrString e))
    | Except.ok h =>
      match tc, h with
      | some t, some hu =>
        Except.ok (ReadResult.success (round1 t) (round1 (t * (9 / 5) + 32)) (round1 hu))
      | _, _ => Except.ok (ReadResult.failure "Failed to retrieve data from sensor")

/-- The resource state of the underlying adafruit_dht handle owned by a
DHT22Sensor instance: whether it has been released. -/
structure DHTHandle where
  released : Bool
deriving DecidableEq, Repr

/-- Modelled from the spec: self.sensor.exit() is driver code outside
src/ (the adafruit_dht library).  Per the spec's resource model a sensor
instance owns its resource handle and exit releases it; releasing an
already-released handle is the fault case cleanup must tolerate, so exit
is modelled as raising in that case. -/
def dhtExit (h : DHTHandle) : Except String DHTHandle :=
  if h.released then Except.error "DHT22 device already released"
  else Except.ok { released := true }

/-- DHT22Sensor.cleanup, src/sensors/dht22.py lines 88-94: try
self.sensor.exit(), catching and logging any exception, which leaves the
handle state as it was.  The Except String layer records whether the call
itself lets an exception escape. -/
def dht_cleanup (h : DHTHandle) : Except String DHTHandle :=
  match dhtExit h with
  | Except.ok h2 => Except.ok h2
  | Except.error _ => Except.ok h

/-- BaseSensor.cleanup, src/sensors/base.py lines 48-50: pass. -/
def base_cleanup (u : Unit) : Except String Unit :=
  Except.ok u

/-- The first sensor whose get_info()['type'] equals 'DHT22', as scanned
by the legacy endpoint, src/app.py lines 160-165. -/
def findDHT22 (reg : Registry) : Option SensorInstance :=
  (reg.find? (fun p => (get_info p.2).type_ == "DHT22")).map Prod.snd

/-- Observable outcome of one endpoint handler: the HTTP status code it
answers with and how many sensor reads it performed. -/
structure EndpointResult where
  httpCode : Nat
  readsPerformed : Nat
deriving DecidableEq, Repr

/-- GET /api/sensors/<sensor_id>, src/app.py lines 123-139: compare the
Authorization header with API_KEY and abort(401) on mismatch (the header
is an optional string, the key a string, so a missing header never
matches); then the registry membership test (404 when absent); then one
read, answered 200 on success and 500 on a tagged failure (an uncaught
raise from read() also surfaces as the framework's 500). -/
def get_sensor_data (auth : Option String) (apiKey : String) (reg : Registry)
    (sensor_id : String) : EndpointResult :=
  if auth ≠ some apiKey then { httpCode := 401, readsPerformed := 0 }
  else
    match lookupReg reg sensor_id with
    | none => { httpCode := 404, readsPerformed := 0 }
    | some inst =>
      match inst.readBehavior with
      | ReadOutcome.ok => { httpCode := 200, readsPerformed := 1 }
      | _ => { httpCode := 500, readsPerformed := 1 }

/-- GET /api/sensors/<sensor_id>/info, src/app.py lines 142-152: auth
check, then membership test, then get_info only — no read. -/
def get_sensor_info (auth : Option String) (apiKey : String) (reg : Registry)
    (sensor_id : String) : EndpointResult :=
  if auth ≠ some apiKey then { httpCode := 401, readsPerformed := 0 }
  else
    match lookupReg reg sensor_id with
    | none => { httpCode := 404, readsPerformed := 0 }
    | some _ => { httpCode := 200, readsPerformed := 0 }

/-- GET /api/sensors, src/app.py lines 106-120: auth check, then
get_info on every sensor — no read. -/
def list_sensors (auth : Option String) (apiKey : String) (reg : Registry) :
    EndpointResult :=
  if auth ≠ some apiKey then { httpCode := 401, readsPerformed := 0 }
  else { httpCode := 200, readsPerformed := 0 }

/-- GET /api/temp-and-humid-sensor, src/app.py lines 155-177: auth
check, then scan for the first DHT22-typed sensor (404 when none), then
one read answered like the identifier-based data endpoint. -/
def legacy_endpoint (auth : Option String) (apiKey : String) (reg : Registry) :
    EndpointResult :=
  if auth ≠ some apiKey then { httpCode := 401, readsPerformed := 0 }
  else
    match findDHT22 reg with
    | none => { httpCode := 404, readsPerformed := 0 }
    | some inst =>
      match inst.readBehavior with
      | ReadOutcome.ok => { httpCode := 200, readsPerformed := 1 }
      | _ => { httpCode := 500, readsPerformed := 1 }

/-- GET / and GET /health, src/app.py lines 72-103: the handler takes no
credential and never reads the Authorization header; it is modelled with
the header as an argument it ignores, to state that fact. -/
def health_endpoint (auth : Option String) (reg : Registry) : HealthReport :=
  checkHealth reg

/-- The specs with a successful enabled check and instantiation, in
order: exactly the specs that contribute a dict assignment during
load_sensors. -/
def loadedSpecs (specs : List Spec) : List Spec :=
  specs.filter shouldLoad

/-- The last spec of the list that loads successfully under identifier k,
if any: with dict-update semantics this is the spec whose instance the
registry finally holds at k. -/
def lastWinner (k : String) : List Spec → Option Spec
  | [] => none
  | s :: rest =>
    match lastWinner k rest with
    | some t => some t
    | none => if shouldLoad s ∧ s.id = k then some s else none

/-- Sample spec: an enabled DHT22 whose reads succeed. -/
def specOk : Spec :=
  { id := "t1", name := some "Living Room", type_ := "DHT22", enabled := none,
    pin := some "D4", ctorRaises := none, readBehavior := ReadOutcome.ok }

/-- Sample spec: an enabled DHT22 whose reads return a tagged failure. -/
def specFailRead : Spec :=
  { id := "t2", name := some "Attic", type_ := "DHT22", enabled := some true,
    pin := some "D17", ctorRaises := none, readBehavior := ReadOutcome.fail }

/-- Sample spec: an unknown type tag, so the dynamic import raises. -/
def specBadType : Spec :=
  { id := "t4", name := none, type_ := "BME280", enabled := some true,
    pin := none, ctorRaises := some "No module named sensors.bme280",
    readBehavior := ReadOutcome.ok }

/-- Sample spec: disabled in the configuration. -/
def specDisabled : Spec :=
  { id := "t5", name := some "Spare", type_ := "DHT22", enabled := some false,
    pin := some "D22", ctorRaises := none, readBehavior := ReadOutcome.ok }

/-- Sample spec: same identifier as specOk, different instance data. -/
def specOkDup : Spec :=
  { id := "t1", name := some "Duplicate", type_ := "DHT22", enabled := some true,
    pin := some "D27", ctorRaises := none, readBehavior := ReadOutcome.fail }

/-- The health loop accumulates exactly the healthy and unhealthy counts
of the registry and the per-sensor status list, independent of the
starting accumulator. -/
lemma foldl_healthStep (reg : Registry) (h u : Nat) (st : List (String × String)) :
    reg.foldl healthStep (h, u, st) =
      (h + numHealthy reg, u + numUnhealthy reg,
       st ++ reg.map (fun p => (p.1, perStatus p.2.readBehavior))) := by
  induction reg generalizing h u st with
  | nil => simp [numHealthy, numUnhealthy]
  | cons p rest ih =>
    cases hp : p.2.readBehavior with
    | ok =>
      simp only [List.foldl_cons, healthStep, hp, ih, numHealthy, numUnhealthy,
        List.countP_cons, isHealthyRead, List.map_cons, perStatus]
      refine Prod.ext ?_ (Prod.ext ?_ ?_) <;> simp [hp, isHealthyRead] <;> omega
    | fail =>
      simp only [List.foldl_cons, healthStep, hp, ih, numHealthy, numUnhealthy,
        List.countP_cons, isHealthyRead, List.map_cons, perStatus]
      refine Prod.ext ?_ (Prod.ext ?_ ?_) <;> simp [hp, isHealthyRead] <;> omega
    | raises m =>
      simp only [List.foldl_cons, healthStep, hp, ih, numHealthy, numUnhealthy,
        List.countP_cons, isHealthyRead, List.map_cons, perStatus]
      refine Prod.ext ?_ (Prod.ext ?_ ?_) <;> simp [hp, isHealthyRead] <;> omega

/-- The summary counts of check_health are the healthy/unhealthy sensor
counts of the registry. -/
lemma checkHealth_counts (reg : Registry) :
    (checkHealth reg).healthy = numHealthy reg ∧
      (checkHealth reg).unhealthy = numUnhealthy reg := by
  simp [checkHealth, foldl_healthStep]

/-- The per-sensor status map of check_health lists every registered
sensor, in order, with the status of its own read outcome. -/
lemma checkHealth_sensorStatus (reg : Registry) :
    (checkHealth reg).sensorStatus =
      reg.map (fun p => (p.1, perStatus p.2.readBehavior)) := by
  simp [checkHealth, foldl_healthStep]

/-- The overall status of check_health as a function of the two counts. -/
lemma checkHealth_status (reg : Registry) :
    (checkHealth reg).status =
      if numUnhealthy reg = 0 then "healthy"
      else if 0 < numHealthy reg then "degraded" else "unhealthy" := by
  simp [checkHealth, foldl_healthStep]

/-- Membership in the key sequence unpacked. -/
lemma mem_keys (m : Registry) (k : String) : k ∈ keys m ↔ ∃ v, (k, v) ∈ m := by
  unfold keys
  rw [List.mem_map]
  constructor
  · rintro ⟨p, hp, rfl⟩
    exact ⟨p.2, hp⟩
  · rintro ⟨v, hv⟩
    exact ⟨(k, v), hv, rfl⟩

/-- A key absent from the registry is never found. -/
lemma find?_key_eq_none (m : Registry) (k : String) (h : k ∉ keys m) :
    m.find? (fun p => p.1 == k) = none := by
  rw [List.find?_eq_none]
  intro p hp hpk
  have hk : p.1 = k := by simpa using hpk
  exact h (by unfold keys; exact List.mem_map.mpr ⟨p, hp, hk⟩)

/-- Replacing the value bound to a key in place keeps the key sequence
as it is: a replaced entry keeps its key. -/
lemma keys_map_replace (m : Registry) (k : String) (v : SensorInstance) :
    keys (m.map (fun p => if p.1 = k then (k, v) else p)) = keys m := by
  induction m with
  | nil => rfl
  | cons p rest ih =>
    by_cases hp : p.1 = k
    · simp only [keys, List.map_cons] at ih ⊢
      rw [if_pos hp, hp, ih]
    · simp only [keys, List.map_cons] at ih ⊢
      rw [if_neg hp, ih]

/-- Replacement does not move which entry a lookup of a different key
finds. -/
lemma find?_map_replace_ne (m : Registry) (k : String) (v : SensorInstance)
    (x : String) (h : x ≠ k) :
    (m.map (fun p => if p.1 = k then (k, v) else p)).find? (fun p => p.1 == x) =
      m.find? (fun p => p.1 == x) := by
  induction m with
  | nil => rfl
  | cons p rest ih =>
    by_cases hp : p.1 = k
    · have hkx : ¬(k == x) = true := by
        simpa using fun hkx => h (by simp [hkx])
      have hpx : ¬(p.1 == x) = true := by rw [hp]; exact hkx
      simp only [List.map_cons, if_pos hp, List.find?_cons]
      rw [show ((k, v).1 == x) = false by simpa using hkx,
        show (p.1 == x) = false by simpa using hpx]
      exact ih
    · by_cases hpx : p.1 = x
      · simp only [List.map_cons, if_neg hp, List.find?_cons]
        rw [show (p.1 == x) = true by simpa using hpx]
      · simp only [List.map_cons, if_neg hp, List.find?_cons]
        rw [show (p.1 == x) = false by simpa using hpx]
        exact ih

/-- After replacement, looking up the replaced key finds the new
binding, provided the key was present. -/
lemma find?_map_replace_self (m : Registry) (k : String) (v : SensorInstance)
    (h : k ∈ keys m) :
    (m.map (fun p => if p.1 = k then (k, v) else p)).find? (fun p => p.1 == k) =
      some (k, v) := by
  induction m with
  | nil => simp [keys] at h
  | cons p rest ih =>
    by_cases hp : p.1 = k
    · simp [List.map_cons, if_pos hp, List.find?_cons]
    · have hrest : k ∈ keys rest := by
        rcases (by simpa [keys] using h : k = p.1 ∨ ∃ x, (k, x) ∈ rest) with h1 | h1
        · exact absurd h1.symm hp
        · exact (mem_keys rest k).mpr h1
      simp only [List.map_cons, if_neg hp, List.find?_cons]
      rw [show (p.1 == k) = false by simpa using hp]
      exact ih hrest

/-- The key sequence after a dict assignment: unchanged when the key is
present, appended otherwise. -/
lemma keys_dictInsert (m : Registry) (k : String) (v : SensorInstance) :
    keys (dictInsert m k v) = if k ∈ keys m then keys m else keys m ++ [k] := by
  unfold dictInsert
  split
  · exact keys_map_replace m k v
  · simp [keys]

/-- dictInsert preserves key uniqueness. -/
lemma nodup_keys_dictInsert (m : Registry) (k : String) (v : SensorInstance)
    (h : (keys m).Nodup) : (keys (dictInsert m k v)).Nodup := by
  rw [keys_dictInsert]
  split
  · exact h
  · rename_i hk
    rw [List.nodup_append]
    refine ⟨h, List.nodup_singleton k, ?_⟩
    intro a ha hak
    rw [List.mem_singleton] at hak
    subst hak
    exact hk ha

/-- Inserting at a fresh key is an append. -/
lemma dictInsert_of_not_mem (m : Registry) (k : String) (v : SensorInstance)
    (h : k ∉ keys m) : dictInsert m k v = m ++ [(k, v)] := by
  unfold dictInsert
  exact if_neg h

/-- Every entry of dictInsert m k v is the new binding or an original
entry. -/
lemma mem_dictInsert (m : Registry) (k : String) (v : SensorInstance)
    (q : String × SensorInstance) (h : q ∈ dictInsert m k v) :
    q = (k, v) ∨ q ∈ m := by
  unfold dictInsert at h
  split at h
  · rcases List.mem_map.mp h with ⟨p, hp, hq⟩
    by_cases hpk : p.1 = k
    · left
      rw [if_pos hpk] at hq
      exact hq.symm
    · right
      rw [if_neg hpk] at hq
      exact hq ▸ hp
  · rcases List.mem_append.mp h with h1 | h1
    · right; exact h1
    · left
      exact List.mem_singleton.mp h1

/-- Looking up the inserted key finds the inserted value. -/
lemma lookup_dictInsert_self (m : Registry) (k : String) (v : SensorInstance) :
    lookupReg (dictInsert m k v) k = some v := by
  unfold dictInsert lookupReg
  split
  · rw [find?_map_replace_self m k v (by assumption)]
    rfl
  · rw [List.find?_append, find?_key_eq_none m k (by assumption)]
    simp [List.find?_cons]

/-- Looking up a different key is unaffected by the insertion. -/
lemma lookup_dictInsert_ne (m : Registry) (k : String) (v : SensorInstance)
    (x : String) (h : x ≠ k) : lookupReg (dictInsert m k v) x = lookupReg m x := by
  unfold dictInsert lookupReg
  split
  · rw [find?_map_replace_ne m k v x h]
  · rw [List.find?_append]
    have hsingle : List.find? (fun p => p.1 == x) [(k, v)] = none := by
      simp only [List.find?_cons]
      rw [show ((k, v).1 == x) = false by simpa using fun hkx => h (by simp [hkx])]
      rfl
    cases hm : m.find? (fun p => p.1 == x) <;> simp [hsingle, hm]

/-- The loop body of load_sensors in one equation: a spec that passes
the enabled check and instantiates is assigned into the dict, every
other spec leaves the dict as it was. -/
lemma loadStep_eq (m : Registry) (s : Spec) :
    loadStep m s =
      if shouldLoad s then dictInsert m s.id (mkInstance s) else m := by
  unfold loadStep instantiate shouldLoad
  cases he : s.enabled.getD true <;> cases hc : s.ctorRaises <;> simp [he, hc]

/-- What a lookup finds after folding the loader over a spec list: the
instance of the last spec that successfully loads under that key, or
whatever the starting dict held. -/
lemma lookup_foldl_load (specs : List Spec) (m : Registry) (k : String) :
    lookupReg (specs.foldl loadStep m) k =
      match lastWinner k specs with
      | some s => some (mkInstance s)
      | none => lookupReg m k := by
  induction specs generalizing m with
  | nil => rfl
  | cons s rest ih =>
    rw [List.foldl_cons, ih]
    cases hlw : lastWinner k rest with
    | some t => simp [lastWinner, hlw]
    | none =>
      simp only [lastWinner, hlw]
      rw [loadStep_eq]
      by_cases hs : shouldLoad s
      · by_cases hk : s.id = k
        · rw [if_pos hs, if_pos ⟨hs, hk⟩, hk, lookup_dictInsert_self]
        · rw [if_pos hs, if_neg (by rintro ⟨-, h⟩; exact hk h),
            lookup_dictInsert_ne m s.id (mkInstance s) k (fun h => hk h.symm)]
      · rw [if_neg hs, if_neg (by rintro ⟨h, -⟩; exact hs h)]

/-- No spec of the list loads under key k. -/
lemma lastWinner_eq_none (k : String) (specs : List Spec)
    (h : ∀ s ∈ specs, ¬(shouldLoad s = true ∧ s.id = k)) :
    lastWinner k specs = none := by
  induction specs with
  | nil => rfl
  | cons s rest ih =>
    simp only [lastWinner, ih (fun t ht => h t (List.mem_cons_of_mem s ht))]
    rw [if_neg (h s (List.mem_cons_self s rest))]

/-- lastWinner scans from the rear: the tail of an append wins. -/
lemma lastWinner_append (k : String) (l1 l2 : List Spec) :
    lastWinner k (l1 ++ l2) =
      match lastWinner k l2 with
      | some t => some t
      | none => lastWinner k l1 := by
  induction l1 with
  | nil => cases hlw : lastWinner k l2 <;> simp [hlw, lastWinner]
  | cons s rest ih =>
    rw [List.cons_append]
    simp only [lastWinner, ih]
    cases hlw : lastWinner k l2 <;> cases hlr : lastWinner k rest <;> simp [hlw, hlr]

/-- Folding the loader keeps the dict's keys free of duplicates. -/
lemma nodup_keys_foldl_load (specs : List Spec) (m : Registry)
    (h : (keys m).Nodup) : (keys (specs.foldl loadStep m)).Nodup := by
  induction specs generalizing m with
  | nil => exact h
  | cons s rest ih =>
    rw [List.foldl_cons]
    apply ih
    rw [loadStep_eq]
    split
    · exact nodup_keys_dictInsert m s.id (mkInstance s) h
    · exact h

/-- When the successfully loading specs have pairwise distinct
identifiers, all fresh to the starting dict, the fold is a plain append
of one entry per loading spec, in order. -/
lemma foldl_load_of_nodup (specs : List Spec) (m : Registry)
    (hnodup : ((loadedSpecs specs).map Spec.id).Nodup)
    (hfresh : ∀ s ∈ specs, shouldLoad s → s.id ∉ keys m) :
    specs.foldl loadStep m =
      m ++ (loadedSpecs specs).map (fun s => (s.id, mkInstance s)) := by
  induction specs generalizing m with
  | nil => simp [loadedSpecs]
  | cons s rest ih =>
    rw [List.foldl_cons, loadStep_eq]
    by_cases hs : shouldLoad s
    · have hload : loadedSpecs (s :: rest) = s :: loadedSpecs rest := by
        unfold loadedSpecs
        rw [List.filter_cons, if_pos hs]
      rw [if_pos hs,
        dictInsert_of_not_mem m s.id (mkInstance s)
          (hfresh s (List.mem_cons_self s rest) hs)]
      have hnodup2 : ((loadedSpecs rest).map Spec.id).Nodup := by
        rw [hload, List.map_cons, List.nodup_cons] at hnodup
        exact hnodup.2
      have hid : s.id ∉ (loadedSpecs rest).map Spec.id := by
        rw [hload, List.map_cons, List.nodup_cons] at hnodup
        exact hnodup.1
      have hfresh2 : ∀ t ∈ rest, shouldLoad t → t.id ∉ keys (m ++ [(s.id, mkInstance s)]) := by
        intro t ht hts
        have h1 : t.id ∉ keys m := hfresh t (List.mem_cons_of_mem s ht) hts
        have h2 : t.id ≠ s.id := by
          intro he
          apply hid
          rw [← he]
          exact List.mem_map.mpr ⟨t, by unfold loadedSpecs; exact List.mem_filter.mpr ⟨ht, hts⟩, rfl⟩
        unfold keys
        rw [List.map_append, List.mem_append]
        rintro (h3 | h3)
        · exact h1 h3
        · exact h2 (by simpa using h3)
      rw [ih (m ++ [(s.id, mkInstance s)]) hnodup2 hfresh2, hload]
      simp
    · have hload : loadedSpecs (s :: rest) = loadedSpecs rest := by
        unfold loadedSpecs
        rw [List.filter_cons, if_neg (by simpa using hs)]
      rw [if_neg hs, hload]
      exact ih m (by rwa [hload] at hnodup)
        (fun t ht => hfresh t (List.mem_cons_of_mem s ht))

/-- Every entry the loader ever writes binds a key to an instance that
carries that key as its sensor_id. -/
lemma foldl_load_entry_id (specs : List Spec) (m : Registry)
    (hm : ∀ p ∈ m, p.2.sensor_id = p.1) :
    ∀ p ∈ specs.foldl loadStep m, p.2.sensor_id = p.1 := by
  induction specs generalizing m with
  | nil => exact hm
  | cons s rest ih =>
    rw [List.foldl_cons]
    apply ih
    rw [loadStep_eq]
    split
    · intro p hp
      rcases mem_dictInsert m s.id (mkInstance s) p hp with h1 | h1
      · rw [h1]
        rfl
      · exact hm p h1
    · exact hm

/-- In a registry with duplicate-free keys, a successful lookup means
exactly one entry carries that key. -/
lemma length_filter_key (m : Registry) (k : String) (v : SensorInstance)
    (hnd : (keys m).Nodup) (hl : lookupReg m k = some v) :
    (m.filter (fun p => p.1 == k)).length = 1 := by
  induction m with
  | nil => simp [lookupReg] at hl
  | cons p rest ih =>
    have hnd2 : (keys rest).Nodup ∧ p.1 ∉ keys rest := by
      rw [show keys (p :: rest) = p.1 :: keys rest from rfl, List.nodup_cons] at hnd
      exact ⟨hnd.2, hnd.1⟩
    by_cases hp : p.1 = k
    · have hnone : rest.filter (fun q => q.1 == k) = [] := by
        rw [List.filter_eq_nil_iff]
        intro q hq hqk
        have hq1 : q.1 = k := by simpa using hqk
        apply hnd2.2
        rw [hp]
        exact (mem_keys rest k).mpr ⟨q.2, by rw [← hq1]; exact hq⟩
      rw [List.filter_cons, if_pos (by simpa using hp), hnone]
      rfl
    · have hl2 : lookupReg rest k = some v := by
        unfold lookupReg at hl ⊢
        rw [List.find?_cons, show (p.1 == k) = false by simpa using hp] at hl
        exact hl
      rw [List.filter_cons, if_neg (by simpa using hp)]
      exact ih hnd2.1 hl2

/-- The loop order of load_sensors attempts an instantiation for exactly
the specs whose enabled flag is not false, in list order. -/
lemma attemptedSpecs_eq_filter (specs : List Spec) :
    attemptedSpecs specs = specs.filter (fun s => s.enabled.getD true) := by
  have haux : ∀ (l : List Spec) (acc : List Spec),
      l.foldl (fun acc s => if (s.enabled.getD true) = false then acc else acc ++ [s]) acc =
        acc ++ l.filter (fun s => s.enabled.getD true) := by
    intro l
    induction l with
    | nil => intro acc; simp
    | cons s rest ih =>
      intro acc
      rw [List.foldl_cons, List.filter_cons]
      cases he : s.enabled.getD true <;> simp [he, ih]
  unfold attemptedSpecs
  rw [haux specs []]
  rfl

/-- C1: for every registry, the health aggregation reduces the
per-sensor read outcomes as follows: zero unhealthy sensors yield
overall status 'healthy'; at least one healthy and at least one
unhealthy yield 'degraded'; zero healthy and at least one unhealthy
yield 'unhealthy'. -/
theorem c1_health_reduction (reg : Registry) :
    (numUnhealthy reg = 0 → (checkHealth reg).status = "healthy") ∧
    (0 < numHealthy reg → 0 < numUnhealthy reg →
      (checkHealth reg).status = "degraded") ∧
    (numHealthy reg = 0 → 0 < numUnhealthy reg →
      (checkHealth reg).status = "unhealthy") := by
  refine ⟨?_, ?_, ?_⟩
  · intro h
    rw [checkHealth_status, if_pos h]
  · intro h1 h2
    rw [checkHealth_status, if_neg (by omega), if_pos h1]
  · intro h1 h2
    rw [checkHealth_status, if_neg (by omega), if_neg (by omega)]

/-- Witness for C1: one all-healthy registry, one mixed registry and one
all-unhealthy registry, each built by the loader. -/
theorem c1_health_reduction_witness :
    (checkHealth (loadSensors [specOk])).status = "healthy" ∧
    (checkHealth (loadSensors [specOk, specFailRead])).status = "degraded" ∧
    (checkHealth (loadSensors [specFailRead])).status = "unhealthy" :=
  ⟨(c1_health_reduction (loadSensors [specOk])).1 (by decide),
   (c1_health_reduction (loadSensors [specOk, specFailRead])).2.1
     (by decide) (by decide),
   (c1_health_reduction (loadSensors [specFailRead])).2.2
     (by decide) (by decide)⟩

/-- C2 counterexample: on the empty registry the aggregation returns
overall status 'healthy', not 'unhealthy' as the claim states, because
unhealthy_count == 0 takes the first branch of the reduction. -/
theorem c2_empty_registry_counterexample :
    (checkHealth ([] : Registry)).status = "healthy" ∧
    (checkHealth ([] : Registry)).status ≠ "unhealthy" := by
  constructor
  · rfl
  · decide

/-- C2 amended: when the registry is empty (zero registered sensors,
hence healthy == 0 and unhealthy == 0), the health aggregation's
reduction rule yields overall status 'healthy', since unhealthy == 0
selects the first branch. -/
theorem c2_empty_registry_amended :
    numHealthy ([] : Registry) = 0 ∧ numUnhealthy ([] : Registry) = 0 ∧
    (checkHealth ([] : Registry)).status = "healthy" := by
  refine ⟨rfl, rfl, rfl⟩

/-- C3: for every registry, the aggregation pass completes with one
status entry per sensor in order, each sensor's per-sensor status is a
function of its own read outcome alone (so a raising sensor neither
aborts the pass nor affects another sensor's classification), a raising
read is recorded as 'error: <message>', is not counted healthy, and the
unhealthy count tallies every non-successful read including raising
ones. -/
theorem c3_raising_sensor_contained (reg : Registry) :
    (checkHealth reg).sensorStatus =
      reg.map (fun p => (p.1, perStatus p.2.readBehavior)) ∧
    (checkHealth reg).sensorStatus.length = reg.length ∧
    (∀ m, perStatus (ReadOutcome.raises m) = "error: " ++ m) ∧
    (∀ m, isHealthyRead (ReadOutcome.raises m) = false) ∧
    (checkHealth reg).unhealthy = numUnhealthy reg := by
  refine ⟨checkHealth_sensorStatus reg, ?_, fun m => rfl, fun m => rfl,
    (checkHealth_counts reg).2⟩
  rw [checkHealth_sensorStatus reg]
  exact List.length_map reg _

/-- C4: registry construction is partial-failure tolerant: for an
ordered list of enabled specs with pairwise distinct identifiers in
which exactly the spec k fails to instantiate, the resulting registry
holds exactly one entry per other spec, in order and unaffected, so its
size is N - 1, and construction completes. -/
theorem c4_partial_failure_tolerant (pre post : List Spec) (k : Spec)
    (hen : ∀ s ∈ pre ++ k :: post, s.enabled.getD true = true)
    (hids : ((pre ++ k :: post).map Spec.id).Nodup)
    (hkfail : k.ctorRaises.isSome)
    (hok : ∀ s ∈ pre ++ post, s.ctorRaises = none) :
    loadSensors (pre ++ k :: post) =
      (pre ++ post).map (fun s => (s.id, mkInstance s)) ∧
    (loadSensors (pre ++ k :: post)).length = (pre ++ k :: post).length - 1 := by
  have hsl : ∀ s, s.enabled.getD true = true → s.ctorRaises = none →
      shouldLoad s = true := by
    intro s h1 h2
    unfold shouldLoad
    rw [h1, h2]
    rfl
  have hklf : ¬(shouldLoad k = true) := by
    unfold shouldLoad
    rcases Option.isSome_iff_exists.mp hkfail with ⟨msg, hmsg⟩
    rw [hmsg]
    simp
  have hls : loadedSpecs (pre ++ k :: post) = pre ++ post := by
    unfold loadedSpecs
    rw [List.filter_append, List.filter_cons, if_neg hklf]
    have h1 : pre.filter shouldLoad = pre :=
      List.filter_eq_self.mpr (fun s hs =>
        hsl s (hen s (List.mem_append_left _ hs))
          (hok s (List.mem_append_left _ hs)))
    have h2 : post.filter shouldLoad = post :=
      List.filter_eq_self.mpr (fun s hs =>
        hsl s (hen s (List.mem_append_right _ (List.mem_cons_of_mem k hs)))
          (hok s (List.mem_append_right _ hs)))
    rw [h1, h2]
  have hsub : (pre ++ post).Sublist (pre ++ k :: post) :=
    List.Sublist.append (List.Sublist.refl pre) (List.sublist_cons_self k post)
  have hnodup : ((loadedSpecs (pre ++ k :: post)).map Spec.id).Nodup := by
    rw [hls]
    exact List.Nodup.sublist (List.Sublist.map Spec.id hsub) hids
  have hmain := foldl_load_of_nodup (pre ++ k :: post) [] hnodup
    (fun s hs hsl2 => by simp [keys])
  constructor
  · unfold loadSensors
    rw [hmain, hls]
    rfl
  · unfold loadSensors
    rw [hmain, hls]
    simp

/-- Witness for C4: three specs of which the middle one has an unknown
type tag; the registry keeps exactly the other two. -/
theorem c4_partial_failure_tolerant_witness :
    loadSensors ([specOk] ++ specBadType :: [specFailRead]) =
      ([specOk] ++ [specFailRead]).map (fun s => (s.id, mkInstance s)) ∧
    (loadSensors ([specOk] ++ specBadType :: [specFailRead])).length =
      ([specOk] ++ specBadType :: [specFailRead]).length - 1 :=
  c4_partial_failure_tolerant [specOk] [specFailRead] specBadType
    (by decide) (by decide) (by decide) (by decide)

/-- C5: DHT22Sensor.read never lets a hardware fault escape: for every
device behavior the call returns normally with a tagged result, and when
the temperature or the humidity access raises, the result is the tagged
failure carrying that exception's message. -/
theorem c5_dht22_read_contains_faults (dev : DHTDevice) :
    (∃ r, dht22_read dev = Except.ok r) ∧
    (∀ e, dev.temperature = Except.error e →
      dht22_read dev = Except.ok (ReadResult.failure (pyErrString e))) ∧
    (∀ e tc, dev.temperature = Except.ok tc →
      dev.humidity = Except.error e →
      dht22_read dev = Except.ok (ReadResult.failure (pyErrString e))) := by
  refine ⟨?_, ?_, ?_⟩
  · unfold dht22_read
    cases ht : dev.temperature with
    | error e => exact ⟨ReadResult.failure (pyErrString e), rfl⟩
    | ok tc =>
      cases hh : dev.humidity with
      | error e => exact ⟨ReadResult.failure (pyErrString e), rfl⟩
      | ok h => cases tc <;> cases h <;> exact ⟨_, rfl⟩
  · intro e he
    unfold dht22_read
    rw [he]
  · intro e tc ht hh
    unfold dht22_read
    rw [ht, hh]

/-- Witness for C5: a device whose temperature access raises the common
transient RuntimeError; read converts it into a tagged failure. -/
theorem c5_dht22_read_contains_faults_witness :
    dht22_read
        { temperature := Except.error (PyError.runtimeError "Checksum did not validate"),
          humidity := Except.ok (some 55) } =
      Except.ok (ReadResult.failure "RuntimeError: Checksum did not validate") :=
  (c5_dht22_read_contains_faults
      { temperature := Except.error (PyError.runtimeError "Checksum did not validate"),
        humidity := Except.ok (some 55) }).2.1
    (PyError.runtimeError "Checksum did not validate") rfl

/-- C6: cleanup is total and idempotent on every handle state: one call
returns normally (never raises, even on an already-released handle) and
leaves the handle released, so a second call has the same externally
observable effect as the first; the BaseSensor default cleanup is a
raise-free no-op. -/
theorem c6_cleanup_idempotent (h : DHTHandle) :
    dht_cleanup h = Except.ok { released := true } ∧
    dht_cleanup { released := true } = Except.ok { released := true } ∧
    base_cleanup () = Except.ok () := by
  refine ⟨?_, rfl, rfl⟩
  cases h with
  | mk released => cases released <;> rfl

/-- C7: for every identifier in a registry built by load_sensors, the
instance registered under it reports that same identifier in the
sensor_id field of get_info. -/
theorem c7_roundtrip (specs : List Spec) (k : String) (v : SensorInstance)
    (hmem : (k, v) ∈ loadSensors specs) :
    (get_info v).sensor_id = k := by
  exact foldl_load_entry_id specs []
    (by intro p hp; exact absurd hp (List.not_mem_nil p)) (k, v) hmem

/-- Witness for C7: the loader registers specOk under "t1" and the
info record of that instance carries sensor_id "t1". -/
theorem c7_roundtrip_witness :
    ("t1", mkInstance specOk) ∈ loadSensors [specOk] ∧
    (get_info (mkInstance specOk)).sensor_id = "t1" :=
  ⟨by decide, c7_roundtrip [specOk] "t1" (mkInstance specOk) (by decide)⟩

/-- C8: on a credential that is not exactly the configured key, every
data-returning endpoint answers 401 having performed zero sensor reads,
regardless of the registry and the requested identifier (the check
precedes any registry lookup or read); the health endpoint's answer does
not depend on the presented credential at all. -/
theorem c8_auth_gate (auth : Option String) (apiKey : String)
    (reg : Registry) (sid : String) (hauth : auth ≠ some apiKey) :
    get_sensor_data auth apiKey reg sid = { httpCode := 401, readsPerformed := 0 } ∧
    get_sensor_info auth apiKey reg sid = { httpCode := 401, readsPerformed := 0 } ∧
    list_sensors auth apiKey reg = { httpCode := 401, readsPerformed := 0 } ∧
    legacy_endpoint auth apiKey reg = { httpCode := 401, readsPerformed := 0 } ∧
    (∀ a b : Option String, health_endpoint a reg = health_endpoint b reg) := by
  refine ⟨?_, ?_, ?_, ?_, fun a b => rfl⟩
  · unfold get_sensor_data
    rw [if_pos hauth]
  · unfold get_sensor_info
    rw [if_pos hauth]
  · unfold list_sensors
    rw [if_pos hauth]
  · unfold legacy_endpoint
    rw [if_pos hauth]

/-- Witness for C8: a request with no Authorization header against the
default key and a one-sensor registry. -/
theorem c8_auth_gate_witness :
    get_sensor_data none "Bearer your_secret_api_key" (loadSensors [specOk]) "t1" =
      { httpCode := 401, readsPerformed := 0 } ∧
    get_sensor_info none "Bearer your_secret_api_key" (loadSensors [specOk]) "t1" =
      { httpCode := 401, readsPerformed := 0 } ∧
    list_sensors none "Bearer your_secret_api_key" (loadSensors [specOk]) =
      { httpCode := 401, readsPerformed := 0 } ∧
    legacy_endpoint none "Bearer your_secret_api_key" (loadSensors [specOk]) =
      { httpCode := 401, readsPerformed := 0 } ∧
    (∀ a b : Option String,
      health_endpoint a (loadSensors [specOk]) = health_endpoint b (loadSensors [specOk])) :=
  c8_auth_gate none "Bearer your_secret_api_key" (loadSensors [specOk]) "t1"
    (by decide)

/-- C9: registry construction attempts an instantiation for exactly the
specs whose enabled flag is not false (a missing flag counts enabled),
in list order; and when every spec carrying an identifier was disabled,
lookup of that identifier finds nothing. -/
theorem c9_enabled_filter (specs : List Spec) (i : String)
    (hdis : ∀ s ∈ specs, s.id = i → s.enabled = some false) :
    attemptedSpecs specs = specs.filter (fun s => s.enabled.getD true) ∧
    lookupReg (loadSensors specs) i = none := by
  refine ⟨attemptedSpecs_eq_filter specs, ?_⟩
  unfold loadSensors
  rw [lookup_foldl_load specs [] i,
    lastWinner_eq_none i specs (fun s hs hc => by
      have he := hdis s hs hc.2
      have hb := hc.1
      unfold shouldLoad at hb
      rw [he] at hb
      simp at hb)]
  rfl

/-- Witness for C9: one enabled and one disabled spec; only the enabled
one is attempted and the disabled identifier resolves to nothing. -/
theorem c9_enabled_filter_witness :
    attemptedSpecs [specOk, specDisabled] =
      [specOk, specDisabled].filter (fun s => s.enabled.getD true) ∧
    lookupReg (loadSensors [specOk, specDisabled]) "t5" = none :=
  c9_enabled_filter [specOk, specDisabled] "t5" (by decide)

/-- C10: when two specs that both load successfully share an identifier
and no later spec carries it, the registry ends with exactly one entry
for that identifier, bound to the instance of the later spec
(dict-assignment last-wins); the duplicate is neither rejected nor kept
twice. -/
theorem c10_duplicate_last_wins (pre mid post : List Spec) (s1 s2 : Spec)
    (i : String) (h1 : s1.id = i) (h2 : s2.id = i)
    (hl1 : shouldLoad s1 = true) (hl2 : shouldLoad s2 = true)
    (hpost : ∀ s ∈ post, s.id ≠ i) :
    lookupReg (loadSensors (pre ++ s1 :: mid ++ s2 :: post)) i =
      some (mkInstance s2) ∧
    ((loadSensors (pre ++ s1 :: mid ++ s2 :: post)).filter
      (fun p => p.1 == i)).length = 1 := by
  have hpostlw : lastWinner i post = none :=
    lastWinner_eq_none i post (fun s hs hc => hpost s hs hc.2)
  have e1 : lastWinner i (s2 :: post) = some s2 := by
    simp only [lastWinner, hpostlw]
    rw [if_pos ⟨hl2, h2⟩]
  have hlw : lastWinner i (pre ++ s1 :: mid ++ s2 :: post) = some s2 := by
    rw [lastWinner_append, e1]
  have hlook : lookupReg (loadSensors (pre ++ s1 :: mid ++ s2 :: post)) i =
      some (mkInstance s2) := by
    unfold loadSensors
    rw [lookup_foldl_load _ [] i, hlw]
  refine ⟨hlook, ?_⟩
  exact length_filter_key _ i (mkInstance s2)
    (nodup_keys_foldl_load _ [] (by simp [keys])) hlook

/-- Witness for C10: two successfully loading specs share "t1"; the
registry binds "t1" to the later instance, once. -/
theorem c10_duplicate_last_wins_witness :
    lookupReg (loadSensors ([] ++ specOk :: [] ++ specOkDup :: [])) "t1" =
      some (mkInstance specOkDup) ∧
    ((loadSensors ([] ++ specOk :: [] ++ specOkDup :: [])).filter
      (fun p => p.1 == "t1")).length = 1 :=
  c10_duplicate_last_wins [] [] [] specOk specOkDup "t1" rfl rfl
    (by decide) (by decide) (by decide)

end SensorHub
